import Mathlib

/-!
Shallow embedding of the session/token lifecycle manager of the map
client (`src/services/api.ts`, class `ApiService`).

The class holds four static fields (`accessToken`, `refreshToken`,
`accessTokenExpiry`, `refreshTimeout`) and reads/writes three
`sessionStorage` keys (`access_token`, `refresh_token`,
`access_token_expiry`).  We model the whole mutable world as one record
`SessionState`; every method becomes a pure function on it.  Timestamps
(`Date.getTime()` values) are `Int` milliseconds.  Browser timers are
modelled explicitly: `window.setTimeout` allocates a fresh positive
handle and appends a `(handle, delay)` entry to a `pending` list,
`clearTimeout h` removes the entry for `h`.  Network calls are modelled
by passing the response as a parameter; methods that issue requests also
return the list of requests they made (`Event` trace), so that "exactly
one retry" style properties are statable.
-/

namespace MapApi

/-- JS truthiness of a `string | null` value: `null` and `""` are falsy. -/
def strTruthy : Option String → Bool
  | none => false
  | some s => !(s == "")

/-- The mutable world of `ApiService`: the four static fields plus the
three `sessionStorage` keys, plus the explicit timer model
(`pending` scheduled timers, `nextHandle` for fresh handle allocation;
`window.setTimeout` returns positive integers, so handles start at 1 and
`if (this.refreshTimeout)` is `refreshTimeout ≠ null`). -/
structure SessionState where
  accessToken : Option String
  refreshToken : Option String
  accessTokenExpiry : Option Int
  refreshTimeout : Option Nat
  storeAccess : Option String
  storeRefresh : Option String
  storeExpiry : Option Int
  pending : List (Nat × Int)
  nextHandle : Nat
  deriving Repr, DecidableEq

/-- The state with nothing set: fresh page, empty `sessionStorage`. -/
def emptyState : SessionState :=
  ⟨none, none, none, none, none, none, none, [], 1⟩

/-- A simulated process restart: the in-memory static fields are reset,
timers are gone, only `sessionStorage` survives. -/
def restartOf (s : SessionState) : SessionState :=
  ⟨none, none, none, none, s.storeAccess, s.storeRefresh, s.storeExpiry, [], 1⟩

/-- Model of `clearTimeout(h)`: the timer with handle `h` will no longer fire. -/
def clearTimeoutJS (h : Nat) (s : SessionState) : SessionState :=
  { s with pending := s.pending.filter (fun p => p.1 ≠ h) }

/-- Model of `window.setTimeout(cb, delay)`: allocates a fresh handle and schedules it. -/
def setTimeoutJS (delay : Int) (s : SessionState) : Nat × SessionState :=
  (s.nextHandle,
   { s with pending := s.pending ++ [(s.nextHandle, delay)],
            nextHandle := s.nextHandle + 1 })

/-- Embeds `ApiService.setTokens(accessToken, refreshToken)`. -/
def setTokens (accessToken refreshToken : String) (s : SessionState) : SessionState :=
  { s with accessToken := some accessToken, refreshToken := some refreshToken,
           storeAccess := some accessToken, storeRefresh := some refreshToken }

/-- Embeds `ApiService.setAccessToken(token)`. -/
def setAccessToken (token : String) (s : SessionState) : SessionState :=
  { s with accessToken := some token, storeAccess := some token }

/-- Embeds `ApiService.getAccessToken()`: memory if truthy, else a lazy load from
`sessionStorage` that also populates the memory field. -/
def getAccessToken (s : SessionState) : Option String × SessionState :=
  if strTruthy s.accessToken then (s.accessToken, s)
  else (s.storeAccess, { s with accessToken := s.storeAccess })

/-- Embeds `ApiService.getRefreshToken()`. -/
def getRefreshToken (s : SessionState) : Option String × SessionState :=
  if strTruthy s.refreshToken then (s.refreshToken, s)
  else (s.storeRefresh, { s with refreshToken := s.storeRefresh })

/-- Embeds `ApiService.setExpiry(expires)`: stores the parsed timestamp in memory
and the string in `sessionStorage` (we keep the parsed value). -/
def setExpiry (expires : Int) (s : SessionState) : SessionState :=
  { s with accessTokenExpiry := some expires, storeExpiry := some expires }

/-- Embeds `ApiService.getExpiry()`: memory if set (a `Date` is always truthy),
else a lazy load from `sessionStorage`. -/
def getExpiry (s : SessionState) : Option Int × SessionState :=
  match s.accessTokenExpiry with
  | some e => (some e, s)
  | none =>
    match s.storeExpiry with
    | some e => (some e, { s with accessTokenExpiry := some e })
    | none => (none, s)

/-- Embeds `ApiService.isTokenExpired()`: true when no expiry is known or fewer
than or exactly 5 minutes remain. -/
def isTokenExpired (now : Int) (s : SessionState) : Bool × SessionState :=
  let (expiry, s) := getExpiry s
  match expiry with
  | none => (true, s)
  | some e =>
    let timeUntilExpiry := e - now
    let bufferTime : Int := 5 * 60 * 1000
    (decide (timeUntilExpiry ≤ bufferTime), s)

/-- Embeds `ApiService.stopAutoRefresh()`. -/
def stopAutoRefresh (s : SessionState) : SessionState :=
  match s.refreshTimeout with
  | some h => { clearTimeoutJS h s with refreshTimeout := none }
  | none => s

/-- Embeds `ApiService.clearTokens()`: nulls the three fields, removes the three
storage keys, and stops auto refresh. -/
def clearTokens (s : SessionState) : SessionState :=
  stopAutoRefresh
    { s with accessToken := none, refreshToken := none,
             accessTokenExpiry := none,
             storeAccess := none, storeRefresh := none, storeExpiry := none }

/-- Embeds `ApiService.clearAccessToken()`. -/
def clearAccessToken (s : SessionState) : SessionState :=
  { s with accessToken := none, storeAccess := none }

/-- Embeds `ApiService.startAutoRefresh()`: cancels the previous timer (the field
keeps the stale handle, as in the source), then, when the in-memory
expiry is set, schedules a timer with
`delay = max(timeUntilExpiry - 15min, 0)`. -/
def startAutoRefresh (now : Int) (s : SessionState) : SessionState :=
  let s :=
    match s.refreshTimeout with
    | some h => clearTimeoutJS h s
    | none => s
  match s.accessTokenExpiry with
  | none => s
  | some e =>
    let timeUntilExpiry := e - now
    let refreshBeforeExpiry : Int := 15 * 60 * 1000
    let delay := max (timeUntilExpiry - refreshBeforeExpiry) 0
    let (h, s) := setTimeoutJS delay s
    { s with refreshTimeout := some h }

/-- The nested token fields of a well-shaped refresh/login response body:
`tokens.access.token`, `tokens.access.expires`, `tokens.refresh.token`. -/
structure TokenEnvelope where
  accessTok : String
  accessExpires : Int
  refreshTok : String
  deriving Repr, DecidableEq

/-- Outcome of the `POST /auth/refresh-tokens` network call.
`notOk message` is a non-2xx response whose parsed body had the given
`message` field (`none` when the body is unparseable or has no message);
`okBody tokens` is a 2xx response, with `tokens = none` when the nested
token fields are missing. -/
inductive RefreshResponse where
  | notOk (message : Option String)
  | okBody (tokens : Option TokenEnvelope)
  deriving Repr, DecidableEq

/-- A network request issued by the service: a call to the refresh
endpoint or a call to the device-locations data endpoint. -/
inductive Event where
  | renewFetch
  | dataFetch
  deriving Repr, DecidableEq

/-- Embeds `ApiService.refreshTokens()`, with the network response passed in.
Returns the thrown error or `()`, the new state, and the requests issued. -/
def refreshTokens (now : Int) (resp : RefreshResponse) (s : SessionState) :
    Except String Unit × SessionState × List Event :=
  let (refreshTok, s) := getRefreshToken s
  if !(strTruthy refreshTok) then
    (Except.error "No refresh token available", s, [])
  else
    match resp with
    | RefreshResponse.notOk message =>
      let errorMessage :=
        match message with
        | some m => if m ≠ "" then m else "Token refresh failed"
        | none => "Token refresh failed"
      (Except.error errorMessage, clearTokens s, [Event.renewFetch])
    | RefreshResponse.okBody tokens =>
      match tokens with
      | some env =>
        if env.accessTok ≠ "" ∧ env.refreshTok ≠ "" then
          let s := setTokens env.accessTok env.refreshTok s
          let s := setExpiry env.accessExpires s
          let s := startAutoRefresh now s
          (Except.ok (), s, [Event.renewFetch])
        else
          (Except.error "Invalid token response structure", clearTokens s,
           [Event.renewFetch])
      | none =>
        (Except.error "Invalid token response structure", clearTokens s,
         [Event.renewFetch])

/-- Embeds `ApiService.ensureValidToken()`: throws when either token is absent,
refreshes when the token is stale, otherwise returns at once. -/
def ensureValidToken (now : Int) (resp : RefreshResponse) (s : SessionState) :
    Except String Unit × SessionState × List Event :=
  let (accessTok, s) := getAccessToken s
  let (refreshTok, s) := getRefreshToken s
  if !(strTruthy accessTok) || !(strTruthy refreshTok) then
    (Except.error "No tokens available", s, [])
  else
    let (expired, s) := isTokenExpired now s
    if expired then refreshTokens now resp s
    else (Except.ok (), s, [])

/-- Embeds `ApiService.initializeAuth()`, with the (at most one) refresh response
passed in. -/
def initializeAuth (now : Int) (resp : RefreshResponse) (s : SessionState) :
    Bool × SessionState × List Event :=
  let (accessTok, s) := getAccessToken s
  let (refreshTok, s) := getRefreshToken s
  let (expiry, s) := getExpiry s
  if !(strTruthy accessTok) || !(strTruthy refreshTok) then (false, s, [])
  else
    match expiry with
    | none => (false, clearTokens s, [])
    | some _ =>
      let (expired, s) := isTokenExpired now s
      if expired then
        match refreshTokens now resp s with
        | (Except.ok _, s, ev) => (true, s, ev)
        | (Except.error _, s, ev) => (false, clearTokens s, ev)
      else (true, startAutoRefresh now s, [])

/-- A response of the device-locations data endpoint: an HTTP status and
the decoded body (device locations abstracted to an opaque payload list). -/
structure HttpResponse where
  status : Nat
  body : List Nat
  deriving Repr, DecidableEq

/-- Model of `response.ok`: status in the 2xx range. -/
def respOk (r : HttpResponse) : Bool := 200 ≤ r.status && r.status < 300

/-- Embeds `ApiService.getDeviceLocations()`.  `renewResp1` answers a renewal
triggered by `ensureValidToken`, `renewResp2` one triggered by a 401;
`resp1`/`resp2` answer the first and the retried data request. -/
def getDeviceLocations (now : Int) (renewResp1 renewResp2 : RefreshResponse)
    (resp1 resp2 : HttpResponse) (s : SessionState) :
    Except String (List Nat) × SessionState × List Event :=
  match ensureValidToken now renewResp1 s with
  | (Except.error _, s, ev) => (Except.error "Unauthorized", clearTokens s, ev)
  | (Except.ok _, s, ev0) =>
    let (token, s) := getAccessToken s
    if !(strTruthy token) then
      (Except.error "No access token available", s, ev0)
    else
      let ev1 := ev0 ++ [Event.dataFetch]
      let afterRetry : Except String HttpResponse × SessionState × List Event :=
        if resp1.status == 401 then
          match refreshTokens now renewResp2 s with
          | (Except.ok _, s, ev) =>
            let (_newToken, s) := getAccessToken s
            (Except.ok resp2, s, ev1 ++ ev ++ [Event.dataFetch])
          | (Except.error _, s, ev) =>
            (Except.error "Unauthorized", clearTokens s, ev1 ++ ev)
        else (Except.ok resp1, s, ev1)
      match afterRetry with
      | (Except.error e, s, ev) => (Except.error e, s, ev)
      | (Except.ok response, s, ev) =>
        if response.status == 304 then (Except.ok [], s, ev)
        else if !(respOk response) then
          (Except.error "Failed to fetch device locations", s, ev)
        else (Except.ok response.body, s, ev)

/-! ### Derived predicates used by the specification claims -/

/-- The expiry the lazy getter `getExpiry` would report: memory first,
then `sessionStorage`. -/
def viewExpiry (s : SessionState) : Option Int :=
  match s.accessTokenExpiry with
  | some e => some e
  | none => s.storeExpiry

/-- An access token is present (truthy) through the two-tier lookup. -/
def hasTruthyAccess (s : SessionState) : Bool :=
  strTruthy s.accessToken || strTruthy s.storeAccess

/-- A refresh token is present (truthy) through the two-tier lookup. -/
def hasTruthyRefresh (s : SessionState) : Bool :=
  strTruthy s.refreshToken || strTruthy s.storeRefresh

/-- The spec's Credential-Pair invariant: never an access token without a
refresh token. -/
def TokenInv (s : SessionState) : Prop :=
  hasTruthyAccess s = true → hasTruthyRefresh s = true

/-- All three state fields erased from memory and durable storage. -/
def sessionCleared (s : SessionState) : Prop :=
  s.accessToken = none ∧ s.refreshToken = none ∧ s.accessTokenExpiry = none ∧
  s.storeAccess = none ∧ s.storeRefresh = none ∧ s.storeExpiry = none

/-- Timer-model invariant: every still-scheduled timer is the one whose
handle the `refreshTimeout` field holds (so at most one is armed). -/
def TimerInv (s : SessionState) : Prop :=
  ∀ p ∈ s.pending, s.refreshTimeout = some p.1

instance (s : SessionState) : Decidable (TimerInv s) := by
  unfold TimerInv; infer_instance

instance (s : SessionState) : Decidable (TokenInv s) := by
  unfold TokenInv; infer_instance

instance (s : SessionState) : Decidable (sessionCleared s) := by
  unfold sessionCleared; infer_instance

/-- The refresh response shapes `refreshTokens` treats as failures:
non-2xx, or 2xx with the nested token fields missing or empty. -/
def renewalFailureShape : RefreshResponse → Prop
  | RefreshResponse.notOk _ => True
  | RefreshResponse.okBody none => True
  | RefreshResponse.okBody (some env) => env.accessTok = "" ∨ env.refreshTok = ""

/-- Number of refresh-endpoint requests in a trace. -/
def countRenew (ev : List Event) : Nat := ev.count Event.renewFetch

/-- Number of data-endpoint requests in a trace. -/
def countData (ev : List Event) : Nat := ev.count Event.dataFetch

/-! ### Helper lemmas -/

theorem getAccessToken_fst (s : SessionState) :
    strTruthy (getAccessToken s).1 = hasTruthyAccess s := by
  unfold getAccessToken hasTruthyAccess
  by_cases h : strTruthy s.accessToken <;> simp [h]

theorem getRefreshToken_fst (s : SessionState) :
    strTruthy (getRefreshToken s).1 = hasTruthyRefresh s := by
  unfold getRefreshToken hasTruthyRefresh
  by_cases h : strTruthy s.refreshToken <;> simp [h]

theorem pending_nil_of_inv_none {s : SessionState} (hI : TimerInv s)
    (h : s.refreshTimeout = none) : s.pending = [] := by
  rcases hp : s.pending with _ | ⟨p, rest⟩
  · rfl
  · have := hI p (by rw [hp]; exact List.mem_cons_self p rest)
    rw [h] at this
    exact absurd this (by simp)

theorem pending_clear_of_inv {s : SessionState} {h : Nat} (hI : TimerInv s)
    (hh : s.refreshTimeout = some h) : (clearTimeoutJS h s).pending = [] := by
  unfold clearTimeoutJS
  simp only [List.filter_eq_nil_iff]
  intro p hp
  have := hI p hp
  rw [hh] at this
  simp only [Option.some.injEq] at this
  simp [this]

theorem clearTokens_timer {s : SessionState} (hI : TimerInv s) :
    (clearTokens s).refreshTimeout = none ∧ (clearTokens s).pending = [] := by
  unfold clearTokens stopAutoRefresh
  cases hrt : s.refreshTimeout with
  | none =>
    refine ⟨rfl, ?_⟩
    show s.pending = []
    exact pending_nil_of_inv_none hI hrt
  | some h =>
    refine ⟨rfl, ?_⟩
    show s.pending.filter (fun p => p.1 ≠ h) = []
    have hp : (clearTimeoutJS h s).pending = [] := pending_clear_of_inv hI hrt
    simpa [clearTimeoutJS] using hp

theorem clearTokens_cleared (s : SessionState) : sessionCleared (clearTokens s) := by
  unfold sessionCleared clearTokens stopAutoRefresh clearTimeoutJS
  cases s.refreshTimeout <;> simp

theorem clearTokens_refreshTimeout (s : SessionState) :
    (clearTokens s).refreshTimeout = none := by
  unfold clearTokens stopAutoRefresh
  cases s.refreshTimeout <;> rfl

theorem clearTokens_idem (s : SessionState) :
    clearTokens (clearTokens s) = clearTokens s := by
  obtain ⟨a, r, e, t, sa, sr, se, pd, nh⟩ := s
  cases t <;> rfl

theorem getRefreshToken_timer_fields (s : SessionState) :
    (getRefreshToken s).2.refreshTimeout = s.refreshTimeout ∧
    (getRefreshToken s).2.pending = s.pending := by
  unfold getRefreshToken
  by_cases h : strTruthy s.refreshToken <;> simp [h]

theorem timerInv_of_fields {s t : SessionState}
    (ht : t.refreshTimeout = s.refreshTimeout) (hp : t.pending = s.pending)
    (hI : TimerInv s) : TimerInv t := by
  unfold TimerInv at *
  rw [ht, hp]
  exact hI

theorem getAccessToken_of_cleared {t : SessionState} (h : sessionCleared t) :
    (getAccessToken t).1 = none := by
  unfold getAccessToken
  simp [h.1, h.2.2.2.1, strTruthy]

theorem getRefreshToken_of_cleared {t : SessionState} (h : sessionCleared t) :
    (getRefreshToken t).1 = none := by
  unfold getRefreshToken
  simp [h.2.1, h.2.2.2.2.1, strTruthy]

/-- On any failure-shaped response, `refreshTokens` errors out and the
resulting state is `clearTokens` of the post-getter state; the message is
the server's when a nonempty one was parsed. -/
theorem refreshTokens_failure_state (now : Int) (resp : RefreshResponse)
    (s : SessionState) (hr : hasTruthyRefresh s = true)
    (hf : renewalFailureShape resp) :
    ∃ msg, refreshTokens now resp s =
        (Except.error msg, clearTokens (getRefreshToken s).2, [Event.renewFetch]) ∧
      (∀ m, resp = RefreshResponse.notOk (some m) → m ≠ "" → msg = m) := by
  have hv : strTruthy (getRefreshToken s).1 = true := by
    rw [getRefreshToken_fst]; exact hr
  unfold refreshTokens
  cases hpair : getRefreshToken s with
  | mk v s1 =>
    rw [hpair] at hv
    simp only [hv, Bool.not_true, Bool.false_eq_true, if_false]
    cases resp with
    | notOk message =>
      cases message with
      | none => exact ⟨"Token refresh failed", by simp, by intro m hm; cases hm⟩
      | some m =>
        by_cases hm : m = ""
        · refine ⟨"Token refresh failed", by simp [hm], ?_⟩
          intro m' hm' hne
          cases hm'
          exact absurd hm hne
        · refine ⟨m, by simp [hm], ?_⟩
          intro m' hm' _
          cases hm'
          rfl
    | okBody tokens =>
      cases tokens with
      | none =>
        exact ⟨"Invalid token response structure", by simp, by intro m hm; cases hm⟩
      | some env =>
        have hguard : ¬ (env.accessTok ≠ "" ∧ env.refreshTok ≠ "") := by
          unfold renewalFailureShape at hf
          rcases hf with h1 | h1 <;> simp [h1]
        refine ⟨"Invalid token response structure", ?_, by intro m hm; cases hm⟩
        simp [hguard]

/-- On a success-shaped response, `refreshTokens` installs the new pair
and expiry and re-arms the timer. -/
theorem refreshTokens_success_state (now : Int) (env : TokenEnvelope)
    (s : SessionState) (hr : hasTruthyRefresh s = true)
    (ha : env.accessTok ≠ "") (hb : env.refreshTok ≠ "") :
    refreshTokens now (RefreshResponse.okBody (some env)) s =
      (Except.ok (),
       startAutoRefresh now
         (setExpiry env.accessExpires
           (setTokens env.accessTok env.refreshTok (getRefreshToken s).2)),
       [Event.renewFetch]) := by
  have hv : strTruthy (getRefreshToken s).1 = true := by
    rw [getRefreshToken_fst]; exact hr
  unfold refreshTokens
  cases hpair : getRefreshToken s with
  | mk v s1 =>
    rw [hpair] at hv
    simp [hv, ha, hb]

/-- With truthy in-memory tokens and an in-memory expiry more than 5
minutes away, `ensureValidToken` is a no-op. -/
theorem ensureValid_fresh {now : Int} {resp : RefreshResponse} {s : SessionState}
    {e : Int} (ha : strTruthy s.accessToken = true)
    (hr : strTruthy s.refreshToken = true) (he : s.accessTokenExpiry = some e)
    (hfresh : 5 * 60 * 1000 < e - now) :
    ensureValidToken now resp s = (Except.ok (), s, []) := by
  have hlt : ¬ e ≤ 300000 + now := by omega
  unfold ensureValidToken getAccessToken getRefreshToken isTokenExpired getExpiry
  simp [ha, hr, he, hlt]

theorem startAutoRefresh_tokens (now : Int) (s : SessionState) :
    (startAutoRefresh now s).accessToken = s.accessToken ∧
    (startAutoRefresh now s).refreshToken = s.refreshToken ∧
    (startAutoRefresh now s).storeAccess = s.storeAccess ∧
    (startAutoRefresh now s).storeRefresh = s.storeRefresh ∧
    (startAutoRefresh now s).accessTokenExpiry = s.accessTokenExpiry ∧
    (startAutoRefresh now s).storeExpiry = s.storeExpiry := by
  unfold startAutoRefresh clearTimeoutJS setTimeoutJS
  cases hT : s.refreshTimeout <;> cases hE : s.accessTokenExpiry <;> simp [hT, hE]

/-- Full run of `getDeviceLocations` in the C1 scenario: live fresh
session, first data request 401, successful renewal, retried request
401 again. -/
theorem getDeviceLocations_second401_eq (now : Int) (rr1 : RefreshResponse)
    (env : TokenEnvelope) (r1 r2 : HttpResponse) (s : SessionState) (e : Int)
    (ha : strTruthy s.accessToken = true) (hr : strTruthy s.refreshToken = true)
    (he : s.accessTokenExpiry = some e) (hfresh : 5 * 60 * 1000 < e - now)
    (h1 : r1.status = 401) (h2 : r2.status = 401)
    (henva : env.accessTok ≠ "") (henvb : env.refreshTok ≠ "") :
    getDeviceLocations now rr1 (RefreshResponse.okBody (some env)) r1 r2 s =
      (Except.error "Failed to fetch device locations",
       startAutoRefresh now
         (setExpiry env.accessExpires (setTokens env.accessTok env.refreshTok s)),
       [Event.dataFetch, Event.renewFetch, Event.dataFetch]) := by
  have hr' : hasTruthyRefresh s = true := by
    unfold hasTruthyRefresh; simp [hr]
  have hgr : (getRefreshToken s).2 = s := by
    unfold getRefreshToken; simp [hr]
  have hga : getAccessToken s = (s.accessToken, s) := by
    unfold getAccessToken; simp [ha]
  have hmid :
      (startAutoRefresh now
        (setExpiry env.accessExpires
          (setTokens env.accessTok env.refreshTok s))).accessToken
        = some env.accessTok := by
    rw [(startAutoRefresh_tokens now _).1]
    unfold setExpiry setTokens
    rfl
  have hga2 : getAccessToken
      (startAutoRefresh now
        (setExpiry env.accessExpires
          (setTokens env.accessTok env.refreshTok s))) =
      (some env.accessTok,
       startAutoRefresh now
         (setExpiry env.accessExpires
           (setTokens env.accessTok env.refreshTok s))) := by
    unfold getAccessToken
    rw [hmid]
    simp [strTruthy, henva]
  unfold getDeviceLocations
  rw [ensureValid_fresh ha hr he hfresh]
  simp only [hga]
  rw [refreshTokens_success_state now env s hr' henva henvb, hgr]
  simp [ha, h1, hga2, h2, respOk]

/-- The state after the `getAccessToken(); getRefreshToken()` prologue
shared by `ensureValidToken` and `initializeAuth`. -/
def loadTokens (s : SessionState) : SessionState :=
  (getRefreshToken (getAccessToken s).2).2

/-- The state after the full `getAccessToken(); getRefreshToken();
getExpiry()` prologue of `initializeAuth`. -/
def loadAll (s : SessionState) : SessionState :=
  (getExpiry (loadTokens s)).2

theorem getExpiry_fst (s : SessionState) : (getExpiry s).1 = viewExpiry s := by
  unfold getExpiry viewExpiry
  cases hE : s.accessTokenExpiry <;> cases hS : s.storeExpiry <;> simp [hE, hS]

theorem getExpiry_mem (s : SessionState) :
    (getExpiry s).2.accessTokenExpiry = viewExpiry s := by
  unfold getExpiry viewExpiry
  cases hE : s.accessTokenExpiry <;> cases hS : s.storeExpiry <;> simp [hE, hS]

theorem isTokenExpired_state (now : Int) (s : SessionState) :
    (isTokenExpired now s).2 = (getExpiry s).2 := by
  unfold isTokenExpired
  cases hp : getExpiry s with
  | mk v t => cases v <;> simp

theorem isTokenExpired_fst (now : Int) (s : SessionState) :
    (isTokenExpired now s).1 =
      match viewExpiry s with
      | none => true
      | some e => decide (e - now ≤ 5 * 60 * 1000) := by
  unfold isTokenExpired getExpiry viewExpiry
  cases hE : s.accessTokenExpiry <;> cases hS : s.storeExpiry <;> simp [hE, hS]

theorem hasTruthyAccess_congr {s t : SessionState}
    (h1 : t.accessToken = s.accessToken) (h2 : t.storeAccess = s.storeAccess) :
    hasTruthyAccess t = hasTruthyAccess s := by
  unfold hasTruthyAccess; rw [h1, h2]

theorem hasTruthyRefresh_congr {s t : SessionState}
    (h1 : t.refreshToken = s.refreshToken) (h2 : t.storeRefresh = s.storeRefresh) :
    hasTruthyRefresh t = hasTruthyRefresh s := by
  unfold hasTruthyRefresh; rw [h1, h2]

theorem hasTruthyAccess_getAccess (s : SessionState) :
    hasTruthyAccess (getAccessToken s).2 = hasTruthyAccess s := by
  unfold hasTruthyAccess getAccessToken
  by_cases h : strTruthy s.accessToken <;> simp [h]

theorem hasTruthyRefresh_getRefresh (s : SessionState) :
    hasTruthyRefresh (getRefreshToken s).2 = hasTruthyRefresh s := by
  unfold hasTruthyRefresh getRefreshToken
  by_cases h : strTruthy s.refreshToken <;> simp [h]

theorem getAccessToken_fields (s : SessionState) :
    (getAccessToken s).2.refreshToken = s.refreshToken ∧
    (getAccessToken s).2.storeRefresh = s.storeRefresh ∧
    (getAccessToken s).2.accessTokenExpiry = s.accessTokenExpiry ∧
    (getAccessToken s).2.storeExpiry = s.storeExpiry ∧
    (getAccessToken s).2.refreshTimeout = s.refreshTimeout ∧
    (getAccessToken s).2.pending = s.pending ∧
    (getAccessToken s).2.nextHandle = s.nextHandle := by
  unfold getAccessToken
  by_cases h : strTruthy s.accessToken <;> simp [h]

theorem getRefreshToken_fields (s : SessionState) :
    (getRefreshToken s).2.accessToken = s.accessToken ∧
    (getRefreshToken s).2.storeAccess = s.storeAccess ∧
    (getRefreshToken s).2.accessTokenExpiry = s.accessTokenExpiry ∧
    (getRefreshToken s).2.storeExpiry = s.storeExpiry ∧
    (getRefreshToken s).2.refreshTimeout = s.refreshTimeout ∧
    (getRefreshToken s).2.pending = s.pending ∧
    (getRefreshToken s).2.nextHandle = s.nextHandle := by
  unfold getRefreshToken
  by_cases h : strTruthy s.refreshToken <;> simp [h]

theorem getExpiry_fields (s : SessionState) :
    (getExpiry s).2.accessToken = s.accessToken ∧
    (getExpiry s).2.refreshToken = s.refreshToken ∧
    (getExpiry s).2.storeAccess = s.storeAccess ∧
    (getExpiry s).2.storeRefresh = s.storeRefresh ∧
    (getExpiry s).2.storeExpiry = s.storeExpiry ∧
    (getExpiry s).2.refreshTimeout = s.refreshTimeout ∧
    (getExpiry s).2.pending = s.pending ∧
    (getExpiry s).2.nextHandle = s.nextHandle := by
  unfold getExpiry
  cases hE : s.accessTokenExpiry <;> cases hS : s.storeExpiry <;> simp [hE, hS]

theorem viewExpiry_loadTokens (s : SessionState) :
    viewExpiry (loadTokens s) = viewExpiry s := by
  unfold loadTokens viewExpiry
  rw [(getRefreshToken_fields _).2.2.1, (getAccessToken_fields _).2.2.1,
    (getRefreshToken_fields _).2.2.2.1, (getAccessToken_fields _).2.2.2.1]

theorem hasTruthyAccess_loadTokens (s : SessionState) :
    hasTruthyAccess (loadTokens s) = hasTruthyAccess s := by
  unfold loadTokens
  rw [hasTruthyAccess_congr (getRefreshToken_fields _).1 (getRefreshToken_fields _).2.1,
    hasTruthyAccess_getAccess]

theorem hasTruthyRefresh_loadTokens (s : SessionState) :
    hasTruthyRefresh (loadTokens s) = hasTruthyRefresh s := by
  unfold loadTokens
  rw [hasTruthyRefresh_getRefresh,
    hasTruthyRefresh_congr (getAccessToken_fields _).1 (getAccessToken_fields _).2.1]

theorem ensureValidToken_eq (now : Int) (resp : RefreshResponse) (s : SessionState) :
    ensureValidToken now resp s =
      if hasTruthyAccess s = false ∨ hasTruthyRefresh s = false then
        (Except.error "No tokens available", loadTokens s, [])
      else if (isTokenExpired now (loadTokens s)).1 then
        refreshTokens now resp (isTokenExpired now (loadTokens s)).2
      else (Except.ok (), (isTokenExpired now (loadTokens s)).2, []) := by
  unfold ensureValidToken loadTokens getAccessToken getRefreshToken
    hasTruthyAccess hasTruthyRefresh
  by_cases hA : strTruthy s.accessToken <;> by_cases hR : strTruthy s.refreshToken <;>
    simp [hA, hR]

theorem refreshTokens_noToken (now : Int) (resp : RefreshResponse)
    (s : SessionState) (hr : hasTruthyRefresh s = false) :
    refreshTokens now resp s =
      (Except.error "No refresh token available", (getRefreshToken s).2, []) := by
  have hv : strTruthy (getRefreshToken s).1 = false := by
    rw [getRefreshToken_fst]; exact hr
  unfold refreshTokens
  cases hpair : getRefreshToken s with
  | mk v s1 =>
    rw [hpair] at hv
    simp [hv]

/-- Whenever a refresh token is available, `refreshTokens` issues exactly
one request to the refresh endpoint. -/
theorem refreshTokens_trace (now : Int) (resp : RefreshResponse)
    (s : SessionState) (hr : hasTruthyRefresh s = true) :
    countRenew (refreshTokens now resp s).2.2 = 1 := by
  cases resp with
  | notOk m =>
    obtain ⟨msg, heq, -⟩ :=
      refreshTokens_failure_state now (RefreshResponse.notOk m) s hr trivial
    rw [heq]; rfl
  | okBody t =>
    cases t with
    | none =>
      obtain ⟨msg, heq, -⟩ :=
        refreshTokens_failure_state now (RefreshResponse.okBody none) s hr trivial
      rw [heq]; rfl
    | some env =>
      by_cases hga : env.accessTok = ""
      · obtain ⟨msg, heq, -⟩ := refreshTokens_failure_state now
          (RefreshResponse.okBody (some env)) s hr (Or.inl hga)
        rw [heq]; rfl
      · by_cases hgb : env.refreshTok = ""
        · obtain ⟨msg, heq, -⟩ := refreshTokens_failure_state now
            (RefreshResponse.okBody (some env)) s hr (Or.inr hgb)
          rw [heq]; rfl
        · rw [refreshTokens_success_state now env s hr hga hgb]; rfl

theorem viewExpiry_getExpiry (t : SessionState) :
    viewExpiry (getExpiry t).2 = viewExpiry t := by
  unfold viewExpiry getExpiry
  cases hE : t.accessTokenExpiry <;> cases hS : t.storeExpiry <;> simp [hE, hS]

theorem viewExpiry_loadAll (s : SessionState) :
    viewExpiry (loadAll s) = viewExpiry s := by
  unfold loadAll
  rw [viewExpiry_getExpiry, viewExpiry_loadTokens]

theorem hasTruthyRefresh_getExpiry (t : SessionState) :
    hasTruthyRefresh (getExpiry t).2 = hasTruthyRefresh t :=
  hasTruthyRefresh_congr (getExpiry_fields t).2.1 (getExpiry_fields t).2.2.2.1

theorem hasTruthyRefresh_loadAll (s : SessionState) :
    hasTruthyRefresh (loadAll s) = hasTruthyRefresh s := by
  unfold loadAll
  rw [hasTruthyRefresh_getExpiry, hasTruthyRefresh_loadTokens]

theorem startAutoRefresh_armed {now : Int} {t : SessionState} {e : Int}
    (h : t.accessTokenExpiry = some e) :
    (startAutoRefresh now t).refreshTimeout = some t.nextHandle := by
  unfold startAutoRefresh clearTimeoutJS setTimeoutJS
  cases hT : t.refreshTimeout <;> simp [hT, h]

theorem initializeAuth_eq (now : Int) (resp : RefreshResponse) (s : SessionState) :
    initializeAuth now resp s =
      if hasTruthyAccess s = false ∨ hasTruthyRefresh s = false then
        (false, loadAll s, [])
      else
        match viewExpiry s with
        | none => (false, clearTokens (loadAll s), [])
        | some _ =>
          if (isTokenExpired now (loadAll s)).1 then
            match refreshTokens now resp (isTokenExpired now (loadAll s)).2 with
            | (Except.ok _, s2, ev) => (true, s2, ev)
            | (Except.error _, s2, ev) => (false, clearTokens s2, ev)
          else (true, startAutoRefresh now (isTokenExpired now (loadAll s)).2, []) := by
  unfold initializeAuth loadAll loadTokens getAccessToken getRefreshToken getExpiry
    hasTruthyAccess hasTruthyRefresh viewExpiry
  by_cases hA : strTruthy s.accessToken <;> by_cases hR : strTruthy s.refreshToken <;>
    cases hE : s.accessTokenExpiry <;> cases hS : s.storeExpiry <;>
      simp [hA, hR, hE, hS]

/-! ### Credential-pair invariant preservation -/

theorem tokenInv_of_has_eq {s t : SessionState}
    (h1 : hasTruthyAccess t = hasTruthyAccess s)
    (h2 : hasTruthyRefresh t = hasTruthyRefresh s) (h : TokenInv s) :
    TokenInv t := by
  unfold TokenInv at *
  rw [h1, h2]
  exact h

theorem tokenInv_clearTokens (s : SessionState) : TokenInv (clearTokens s) := by
  intro hc
  exfalso
  have hcl := clearTokens_cleared s
  unfold hasTruthyAccess at hc
  rw [hcl.1, hcl.2.2.2.1] at hc
  simp [strTruthy] at hc

theorem tokenInv_clearAccessToken (s : SessionState) :
    TokenInv (clearAccessToken s) := by
  intro hc
  exfalso
  unfold hasTruthyAccess clearAccessToken at hc
  simp [strTruthy] at hc

theorem tokenInv_setTokens (a r : String) (s : SessionState) (hr : r ≠ "") :
    TokenInv (setTokens a r s) := by
  intro _
  unfold hasTruthyRefresh setTokens
  simp [strTruthy, hr]

theorem stopAutoRefresh_fields (s : SessionState) :
    (stopAutoRefresh s).accessToken = s.accessToken ∧
    (stopAutoRefresh s).refreshToken = s.refreshToken ∧
    (stopAutoRefresh s).storeAccess = s.storeAccess ∧
    (stopAutoRefresh s).storeRefresh = s.storeRefresh := by
  unfold stopAutoRefresh clearTimeoutJS
  cases hT : s.refreshTimeout <;> simp [hT]

theorem tokenInv_getAccess {s : SessionState} (h : TokenInv s) :
    TokenInv (getAccessToken s).2 :=
  tokenInv_of_has_eq (hasTruthyAccess_getAccess s)
    (hasTruthyRefresh_congr (getAccessToken_fields s).1 (getAccessToken_fields s).2.1) h

theorem tokenInv_getRefresh {s : SessionState} (h : TokenInv s) :
    TokenInv (getRefreshToken s).2 :=
  tokenInv_of_has_eq
    (hasTruthyAccess_congr (getRefreshToken_fields s).1 (getRefreshToken_fields s).2.1)
    (hasTruthyRefresh_getRefresh s) h

theorem tokenInv_getExpiry {s : SessionState} (h : TokenInv s) :
    TokenInv (getExpiry s).2 :=
  tokenInv_of_has_eq
    (hasTruthyAccess_congr (getExpiry_fields s).1 (getExpiry_fields s).2.2.1)
    (hasTruthyRefresh_getExpiry s) h

theorem tokenInv_isTokenExpired {s : SessionState} (now : Int) (h : TokenInv s) :
    TokenInv (isTokenExpired now s).2 := by
  rw [isTokenExpired_state]
  exact tokenInv_getExpiry h

theorem tokenInv_setExpiry {s : SessionState} (e : Int) (h : TokenInv s) :
    TokenInv (setExpiry e s) :=
  tokenInv_of_has_eq (hasTruthyAccess_congr rfl rfl) (hasTruthyRefresh_congr rfl rfl) h

theorem tokenInv_stopAutoRefresh {s : SessionState} (h : TokenInv s) :
    TokenInv (stopAutoRefresh s) :=
  tokenInv_of_has_eq
    (hasTruthyAccess_congr (stopAutoRefresh_fields s).1 (stopAutoRefresh_fields s).2.2.1)
    (hasTruthyRefresh_congr (stopAutoRefresh_fields s).2.1
      (stopAutoRefresh_fields s).2.2.2) h

theorem tokenInv_startAutoRefresh {s : SessionState} (now : Int) (h : TokenInv s) :
    TokenInv (startAutoRefresh now s) :=
  tokenInv_of_has_eq
    (hasTruthyAccess_congr (startAutoRefresh_tokens now s).1
      (startAutoRefresh_tokens now s).2.2.1)
    (hasTruthyRefresh_congr (startAutoRefresh_tokens now s).2.1
      (startAutoRefresh_tokens now s).2.2.2.1) h

theorem tokenInv_loadTokens {s : SessionState} (h : TokenInv s) :
    TokenInv (loadTokens s) :=
  tokenInv_getRefresh (tokenInv_getAccess h)

theorem tokenInv_loadAll {s : SessionState} (h : TokenInv s) :
    TokenInv (loadAll s) :=
  tokenInv_getExpiry (tokenInv_loadTokens h)

theorem tokenInv_refreshTokens (now : Int) (resp : RefreshResponse)
    (s : SessionState) (h : TokenInv s) :
    TokenInv (refreshTokens now resp s).2.1 := by
  by_cases hr : hasTruthyRefresh s = true
  · cases resp with
    | notOk m =>
      obtain ⟨msg, heq, -⟩ :=
        refreshTokens_failure_state now (RefreshResponse.notOk m) s hr trivial
      rw [heq]
      exact tokenInv_clearTokens _
    | okBody t =>
      cases t with
      | none =>
        obtain ⟨msg, heq, -⟩ :=
          refreshTokens_failure_state now (RefreshResponse.okBody none) s hr trivial
        rw [heq]
        exact tokenInv_clearTokens _
      | some env =>
        by_cases hga : env.accessTok = ""
        · obtain ⟨msg, heq, -⟩ := refreshTokens_failure_state now
            (RefreshResponse.okBody (some env)) s hr (Or.inl hga)
          rw [heq]
          exact tokenInv_clearTokens _
        · by_cases hgb : env.refreshTok = ""
          · obtain ⟨msg, heq, -⟩ := refreshTokens_failure_state now
              (RefreshResponse.okBody (some env)) s hr (Or.inr hgb)
            rw [heq]
            exact tokenInv_clearTokens _
          · rw [refreshTokens_success_state now env s hr hga hgb]
            exact tokenInv_startAutoRefresh now
              (tokenInv_setExpiry env.accessExpires (tokenInv_setTokens _ _ _ hgb))
  · rw [refreshTokens_noToken now resp s (by simpa using hr)]
    exact tokenInv_getRefresh h

theorem tokenInv_ensureValidToken (now : Int) (resp : RefreshResponse)
    (s : SessionState) (h : TokenInv s) :
    TokenInv (ensureValidToken now resp s).2.1 := by
  rw [ensureValidToken_eq]
  by_cases hc : hasTruthyAccess s = false ∨ hasTruthyRefresh s = false
  · rw [if_pos hc]
    exact tokenInv_loadTokens h
  · rw [if_neg hc]
    by_cases hexp : (isTokenExpired now (loadTokens s)).1 = true
    · rw [if_pos hexp]
      exact tokenInv_refreshTokens now resp _
        (tokenInv_isTokenExpired now (tokenInv_loadTokens h))
    · rw [if_neg hexp]
      exact tokenInv_isTokenExpired now (tokenInv_loadTokens h)

theorem tokenInv_initializeAuth (now : Int) (resp : RefreshResponse)
    (s : SessionState) (h : TokenInv s) :
    TokenInv (initializeAuth now resp s).2.1 := by
  rw [initializeAuth_eq]
  by_cases hc : hasTruthyAccess s = false ∨ hasTruthyRefresh s = false
  · rw [if_pos hc]
    exact tokenInv_loadAll h
  · rw [if_neg hc]
    cases hve : viewExpiry s with
    | none => exact tokenInv_clearTokens _
    | some e =>
      by_cases hexp : (isTokenExpired now (loadAll s)).1 = true
      · rw [if_pos hexp]
        have h3 : TokenInv (refreshTokens now resp
            (isTokenExpired now (loadAll s)).2).2.1 :=
          tokenInv_refreshTokens now resp _
            (tokenInv_isTokenExpired now (tokenInv_loadAll h))
        rcases hrt : refreshTokens now resp (isTokenExpired now (loadAll s)).2 with
          ⟨res, s2, ev⟩
        rw [hrt] at h3
        cases res with
        | ok u => exact h3
        | error e2 => exact tokenInv_clearTokens _
      · rw [if_neg hexp]
        exact tokenInv_startAutoRefresh now
          (tokenInv_isTokenExpired now (tokenInv_loadAll h))

theorem tokenInv_getDeviceLocations (now : Int) (rr1 rr2 : RefreshResponse)
    (r1 r2 : HttpResponse) (s : SessionState) (h : TokenInv s) :
    TokenInv (getDeviceLocations now rr1 rr2 r1 r2 s).2.1 := by
  unfold getDeviceLocations
  split
  next e s1 ev heq => exact tokenInv_clearTokens _
  next u s1 ev0 heq =>
    have h1 : TokenInv s1 := by
      have hx := tokenInv_ensureValidToken now rr1 s h
      rw [heq] at hx
      exact hx
    split
    next token s2 heq2 =>
      have h2 : TokenInv s2 := by
        have hx := tokenInv_getAccess h1
        rw [heq2] at hx
        exact hx
      by_cases ht : strTruthy token = true <;> simp only [ht] <;> simp only [Bool.not_true,
        Bool.not_false, Bool.false_eq_true, if_false, if_true]
      · -- token truthy: the first data request is issued
        split
        next e2 st ev heq3 =>
          split at heq3
          · rcases hrt : refreshTokens now rr2 s2 with ⟨res, s3, ev3⟩
            rw [hrt] at heq3
            cases res with
            | ok u2 => simp at heq3
            | error e3 =>
              have hst : st = clearTokens s3 := by
                have hpr := congrArg (fun p => p.2.1) heq3
                simpa using hpr.symm
              rw [hst]
              exact tokenInv_clearTokens s3
          · simp at heq3
        next respX st ev heq3 =>
          split at heq3
          · rcases hrt : refreshTokens now rr2 s2 with ⟨res, s3, ev3⟩
            rw [hrt] at heq3
            cases res with
            | ok u2 =>
              have h3 : TokenInv s3 := by
                have hx := tokenInv_refreshTokens now rr2 s2 h2
                rw [hrt] at hx
                exact hx
              have hst : st = (getAccessToken s3).2 := by
                have hpr := congrArg (fun p => p.2.1) heq3
                simpa using hpr.symm
              have hTst : TokenInv st := hst ▸ tokenInv_getAccess h3
              split
              · exact hTst
              · split <;> exact hTst
            | error e3 => simp at heq3
          · have hst : st = s2 := by
              have hpr := congrArg (fun p => p.2.1) heq3
              simpa using hpr.symm
            have hTst : TokenInv st := hst ▸ h2
            split
            · exact hTst
            · split <;> exact hTst
      · exact h2

/-! ### Concrete states used in witnesses and counterexamples -/

/-- A live session: both tokens set, expiry well in the future of time 0. -/
def s0 : SessionState :=
  ⟨some "A", some "R", some 10000000, none, some "A", some "R", some 10000000, [], 1⟩

/-- A live session with an armed proactive-renewal timer (handle 3). -/
def sTimer : SessionState :=
  ⟨some "A", some "R", some 10000000, some 3, some "A", some "R",
   some 10000000, [(3, 5)], 4⟩

/-- A live session whose expiry is 6 minutes after time 0 (fresh). -/
def sFresh6 : SessionState :=
  ⟨some "A", some "R", some 360000, none, some "A", some "R", some 360000, [], 1⟩

/-- A live session whose expiry is 4 minutes after time 0 (stale). -/
def sStale4 : SessionState :=
  ⟨some "A", some "R", some 240000, none, some "A", some "R", some 240000, [], 1⟩

/-- A well-shaped renewal response body. -/
def envA2 : TokenEnvelope := ⟨"A2", 20000000, "R2"⟩

/-- Both tokens persisted but no expiry recorded (corrupt state). -/
def sNoExpiry : SessionState :=
  ⟨some "A", some "R", none, none, some "A", some "R", none, [], 1⟩

/-! ### Claim theorems -/

/-- C1 counterexample: live fresh session, first data request 401,
renewal succeeds, retried request 401 again.  The claim says the session
is cleared and a terminal authorization failure is surfaced; the code
instead keeps the renewed session and throws the generic fetch-failure
error. -/
theorem second401_session_kept_cex :
    (getDeviceLocations 0 (RefreshResponse.notOk none)
        (RefreshResponse.okBody (some ⟨"A2", 20000000, "R2"⟩))
        ⟨401, []⟩ ⟨401, []⟩ s0).1
      = Except.error "Failed to fetch device locations" ∧
    ¬ sessionCleared (getDeviceLocations 0 (RefreshResponse.notOk none)
        (RefreshResponse.okBody (some ⟨"A2", 20000000, "R2"⟩))
        ⟨401, []⟩ ⟨401, []⟩ s0).2.1 ∧
    (getDeviceLocations 0 (RefreshResponse.notOk none)
        (RefreshResponse.okBody (some ⟨"A2", 20000000, "R2"⟩))
        ⟨401, []⟩ ⟨401, []⟩ s0).2.1.accessToken = some "A2" :=
  ⟨rfl, by decide, rfl⟩

/-- C1 amended: on a 401 first attempt with a successful renewal, exactly
one renewal and exactly one retried request are performed and no third
request is attempted; but when the retried request also returns 401, the
session state is left in place (holding the renewed pair) and the generic
fetch failure `Failed to fetch device locations` is surfaced, not a
terminal authorization failure with a cleared session. -/
theorem second401_generic_error (now : Int) (rr1 : RefreshResponse)
    (env : TokenEnvelope) (r1 r2 : HttpResponse) (s : SessionState) (e : Int)
    (ha : strTruthy s.accessToken = true) (hr : strTruthy s.refreshToken = true)
    (he : s.accessTokenExpiry = some e) (hfresh : 5 * 60 * 1000 < e - now)
    (h1 : r1.status = 401) (h2 : r2.status = 401)
    (henva : env.accessTok ≠ "") (henvb : env.refreshTok ≠ "") :
    (getDeviceLocations now rr1 (RefreshResponse.okBody (some env)) r1 r2 s).1 =
        Except.error "Failed to fetch device locations" ∧
    countData
        (getDeviceLocations now rr1 (RefreshResponse.okBody (some env)) r1 r2 s).2.2
      = 2 ∧
    countRenew
        (getDeviceLocations now rr1 (RefreshResponse.okBody (some env)) r1 r2 s).2.2
      = 1 ∧
    (getDeviceLocations now rr1
        (RefreshResponse.okBody (some env)) r1 r2 s).2.1.accessToken
      = some env.accessTok ∧
    (getDeviceLocations now rr1
        (RefreshResponse.okBody (some env)) r1 r2 s).2.1.refreshToken
      = some env.refreshTok := by
  rw [getDeviceLocations_second401_eq now rr1 env r1 r2 s e ha hr he hfresh h1 h2
    henva henvb]
  refine ⟨rfl, rfl, rfl, ?_, ?_⟩
  · rw [(startAutoRefresh_tokens now _).1]; rfl
  · rw [(startAutoRefresh_tokens now _).2.1]; rfl

/-- Witness for the amended C1 at the concrete session `s0` and time 0. -/
theorem second401_generic_error_witness :
    (getDeviceLocations 0 (RefreshResponse.notOk none)
        (RefreshResponse.okBody (some ⟨"A2", 20000000, "R2"⟩))
        ⟨401, []⟩ ⟨401, []⟩ s0).1
      = Except.error "Failed to fetch device locations" ∧
    countData (getDeviceLocations 0 (RefreshResponse.notOk none)
        (RefreshResponse.okBody (some ⟨"A2", 20000000, "R2"⟩))
        ⟨401, []⟩ ⟨401, []⟩ s0).2.2 = 2 ∧
    countRenew (getDeviceLocations 0 (RefreshResponse.notOk none)
        (RefreshResponse.okBody (some ⟨"A2", 20000000, "R2"⟩))
        ⟨401, []⟩ ⟨401, []⟩ s0).2.2 = 1 ∧
    (getDeviceLocations 0 (RefreshResponse.notOk none)
        (RefreshResponse.okBody (some ⟨"A2", 20000000, "R2"⟩))
        ⟨401, []⟩ ⟨401, []⟩ s0).2.1.accessToken = some "A2" ∧
    (getDeviceLocations 0 (RefreshResponse.notOk none)
        (RefreshResponse.okBody (some ⟨"A2", 20000000, "R2"⟩))
        ⟨401, []⟩ ⟨401, []⟩ s0).2.1.refreshToken = some "R2" :=
  second401_generic_error 0 (RefreshResponse.notOk none) ⟨"A2", 20000000, "R2"⟩
    ⟨401, []⟩ ⟨401, []⟩ s0 10000000 (by decide) (by decide) rfl (by decide)
    rfl rfl (by decide) (by decide)

/-- C4: `ensureValidToken` fails with the no-session error whenever either
token is absent; with both tokens present it performs no renewal when the
expiry is more than 5 minutes away (e.g. 6 minutes) and performs exactly
one renewal when the session is stale (e.g. expiry 4 minutes away). -/
theorem ensureValid_renewal_policy (now : Int) (resp : RefreshResponse)
    (s : SessionState) :
    (hasTruthyAccess s = false ∨ hasTruthyRefresh s = false →
       (ensureValidToken now resp s).1 = Except.error "No tokens available" ∧
       countRenew (ensureValidToken now resp s).2.2 = 0) ∧
    (∀ e, hasTruthyAccess s = true → hasTruthyRefresh s = true →
       viewExpiry s = some e → 5 * 60 * 1000 < e - now →
       (ensureValidToken now resp s).1 = Except.ok () ∧
       countRenew (ensureValidToken now resp s).2.2 = 0) ∧
    (hasTruthyAccess s = true → hasTruthyRefresh s = true →
       (viewExpiry s = none ∨ ∃ e, viewExpiry s = some e ∧ e - now ≤ 5 * 60 * 1000) →
       countRenew (ensureValidToken now resp s).2.2 = 1) := by
  refine ⟨?_, ?_, ?_⟩
  · intro h
    rw [ensureValidToken_eq, if_pos h]
    exact ⟨rfl, rfl⟩
  · intro e hA hR hve hfresh
    rw [ensureValidToken_eq, if_neg (by simp [hA, hR])]
    have hexp : (isTokenExpired now (loadTokens s)).1 = false := by
      rw [isTokenExpired_fst, viewExpiry_loadTokens, hve]
      simp only [decide_eq_false_iff_not]
      omega
    rw [hexp]
    exact ⟨rfl, rfl⟩
  · intro hA hR hstale
    rw [ensureValidToken_eq, if_neg (by simp [hA, hR])]
    have hexp : (isTokenExpired now (loadTokens s)).1 = true := by
      rw [isTokenExpired_fst, viewExpiry_loadTokens]
      rcases hstale with h | ⟨e, he, hle⟩
      · rw [h]
      · rw [he]
        simpa using hle
    rw [hexp]
    simp only [if_true]
    apply refreshTokens_trace
    rw [hasTruthyRefresh_congr
      ((isTokenExpired_state now (loadTokens s)) ▸ (getExpiry_fields (loadTokens s)).2.1)
      ((isTokenExpired_state now (loadTokens s)) ▸ (getExpiry_fields (loadTokens s)).2.2.2.1),
      hasTruthyRefresh_loadTokens]
    exact hR

/-- Witness for C4: no tokens at all, the 6-minute fresh session, and the
4-minute stale session, all at time 0. -/
theorem ensureValid_renewal_policy_witness :
    ((ensureValidToken 0 (RefreshResponse.okBody (some envA2)) emptyState).1
        = Except.error "No tokens available" ∧
     countRenew (ensureValidToken 0 (RefreshResponse.okBody (some envA2))
        emptyState).2.2 = 0) ∧
    ((ensureValidToken 0 (RefreshResponse.okBody (some envA2)) sFresh6).1
        = Except.ok () ∧
     countRenew (ensureValidToken 0 (RefreshResponse.okBody (some envA2))
        sFresh6).2.2 = 0) ∧
    countRenew (ensureValidToken 0 (RefreshResponse.okBody (some envA2))
        sStale4).2.2 = 1 :=
  ⟨(ensureValid_renewal_policy 0 (RefreshResponse.okBody (some envA2))
      emptyState).1 (Or.inl (by decide)),
   (ensureValid_renewal_policy 0 (RefreshResponse.okBody (some envA2))
      sFresh6).2.1 360000 (by decide) (by decide) rfl (by decide),
   (ensureValid_renewal_policy 0 (RefreshResponse.okBody (some envA2))
      sStale4).2.2 (by decide) (by decide) (Or.inr ⟨240000, rfl, by decide⟩)⟩

/-- C5: for every current time and stored expiry, `isTokenExpired`
returns true exactly when no expiry is known or at most 5 minutes remain
until `expiresAt` (boundary inclusive), and false otherwise. -/
theorem isStale_iff_margin (now : Int) (s : SessionState) :
    (isTokenExpired now s).1 = true ↔
      viewExpiry s = none ∨
        ∃ e, viewExpiry s = some e ∧ e - now ≤ 5 * 60 * 1000 := by
  unfold isTokenExpired getExpiry viewExpiry
  cases h : s.accessTokenExpiry with
  | some e => simp
  | none =>
    cases h2 : s.storeExpiry with
    | some e => simp
    | none => simp

/-- C6: `startAutoRefresh` first cancels any previously armed timer (so
at most one timer is armed at a time) and, when the in-memory expiry is
known, schedules one timer with delay `max((expiresAt - now) - 15min, 0)`;
when no expiry is known, no timer is armed. -/
theorem armProactive_single_timer (now : Int) (s : SessionState)
    (hI : TimerInv s) :
    (s.accessTokenExpiry = none → (startAutoRefresh now s).pending = []) ∧
    (∀ e, s.accessTokenExpiry = some e →
       (startAutoRefresh now s).pending
         = [(s.nextHandle, max (e - now - 15 * 60 * 1000) 0)] ∧
       (startAutoRefresh now s).refreshTimeout = some s.nextHandle) ∧
    (startAutoRefresh now s).pending.length ≤ 1 ∧
    TimerInv (startAutoRefresh now s) := by
  unfold startAutoRefresh
  cases hT : s.refreshTimeout with
  | none =>
    have hnil : s.pending = [] := pending_nil_of_inv_none hI hT
    cases hE : s.accessTokenExpiry <;>
      simp [hE, setTimeoutJS, clearTimeoutJS, hnil, TimerInv]
  | some h =>
    have hnil : s.pending.filter (fun p => p.1 ≠ h) = [] := by
      have hp := pending_clear_of_inv hI hT
      simpa [clearTimeoutJS] using hp
    have hmem : ∀ a b, (a, b) ∈ s.pending → a = h := by
      intro a b hab
      have hx := hI (a, b) hab
      rw [hT] at hx
      exact (Option.some_inj.mp hx).symm
    cases hE : s.accessTokenExpiry <;>
      simp [hE, setTimeoutJS, clearTimeoutJS, hnil, TimerInv]
    case none =>
      refine ⟨hmem, ?_, ?_⟩
      · have hfil : List.filter (fun p => !decide (p.1 = h)) s.pending = [] := by
          simpa using hnil
        simp [hfil]
      · intro a b hm hne
        exact absurd (hmem a b hm) hne
    case some e =>
      refine ⟨hmem, ?_⟩
      rintro a b (⟨hm, hne⟩ | ⟨ha, hb⟩)
      · exact absurd (hmem a b hm) hne
      · rw [ha]

/-- Witness for C6 at a concrete state with a previously armed timer and
a known expiry: the old timer is cancelled and exactly one new timer is
scheduled with the margin delay. -/
theorem armProactive_single_timer_witness :
    (startAutoRefresh 0 sTimer).pending
      = [(sTimer.nextHandle, max ((10000000 : Int) - 0 - 15 * 60 * 1000) 0)] ∧
    (startAutoRefresh 0 sTimer).refreshTimeout = some sTimer.nextHandle :=
  (armProactive_single_timer 0 sTimer (by decide)).2.1 10000000 rfl

/-- C7: `initializeAuth` returns false (no session) when either persisted
token is absent; clears all persisted state and returns false when the
tokens are present but the expiry is absent; arms proactive renewal and
returns true when present and fresh; when present and stale it attempts
exactly one renewal, returning true on success and clearing state and
returning false on failure. -/
theorem initializeAuth_cases (now : Int) (resp : RefreshResponse)
    (s : SessionState) :
    (hasTruthyAccess s = false ∨ hasTruthyRefresh s = false →
       (initializeAuth now resp s).1 = false ∧
       (initializeAuth now resp s).2.2 = []) ∧
    (hasTruthyAccess s = true → hasTruthyRefresh s = true →
       viewExpiry s = none →
       (initializeAuth now resp s).1 = false ∧
       sessionCleared (initializeAuth now resp s).2.1) ∧
    (∀ e, hasTruthyAccess s = true → hasTruthyRefresh s = true →
       viewExpiry s = some e → 5 * 60 * 1000 < e - now →
       (initializeAuth now resp s).1 = true ∧
       (initializeAuth now resp s).2.2 = [] ∧
       (initializeAuth now resp s).2.1.refreshTimeout.isSome = true) ∧
    (∀ e env, hasTruthyAccess s = true → hasTruthyRefresh s = true →
       viewExpiry s = some e → e - now ≤ 5 * 60 * 1000 →
       resp = RefreshResponse.okBody (some env) →
       env.accessTok ≠ "" → env.refreshTok ≠ "" →
       (initializeAuth now resp s).1 = true ∧
       countRenew (initializeAuth now resp s).2.2 = 1) ∧
    (∀ e, hasTruthyAccess s = true → hasTruthyRefresh s = true →
       viewExpiry s = some e → e - now ≤ 5 * 60 * 1000 →
       renewalFailureShape resp →
       (initializeAuth now resp s).1 = false ∧
       sessionCleared (initializeAuth now resp s).2.1 ∧
       countRenew (initializeAuth now resp s).2.2 = 1) := by
  refine ⟨?_, ?_, ?_, ?_, ?_⟩
  · intro h
    simp only [initializeAuth_eq]
    rw [if_pos h]
    exact ⟨rfl, rfl⟩
  · intro hA hR hve
    simp only [initializeAuth_eq]
    rw [if_neg (by simp [hA, hR]), hve]
    exact ⟨rfl, clearTokens_cleared _⟩
  · intro e hA hR hve hfresh
    have hexp : (isTokenExpired now (loadAll s)).1 = false := by
      rw [isTokenExpired_fst, viewExpiry_loadAll, hve]
      simp only [decide_eq_false_iff_not]
      omega
    have hmem : (isTokenExpired now (loadAll s)).2.accessTokenExpiry = some e := by
      rw [isTokenExpired_state, getExpiry_mem, viewExpiry_loadAll, hve]
    simp only [initializeAuth_eq]
    rw [if_neg (by simp [hA, hR]), hve]
    simp only [hexp, Bool.false_eq_true, if_false]
    refine ⟨?_, ?_, ?_⟩ <;>
      first
        | rfl
        | trivial
        | (rw [startAutoRefresh_armed hmem]; rfl)
  · intro e env hA hR hve hstale hresp henva henvb
    subst hresp
    have hexp : (isTokenExpired now (loadAll s)).1 = true := by
      rw [isTokenExpired_fst, viewExpiry_loadAll, hve]
      simpa using hstale
    have hRef : hasTruthyRefresh (isTokenExpired now (loadAll s)).2 = true := by
      rw [isTokenExpired_state, hasTruthyRefresh_getExpiry, hasTruthyRefresh_loadAll]
      exact hR
    simp only [initializeAuth_eq]
    rw [if_neg (by simp [hA, hR]), hve]
    simp only [hexp, if_true]
    rw [refreshTokens_success_state now env _ hRef henva henvb]
    exact ⟨rfl, rfl⟩
  · intro e hA hR hve hstale hf
    have hexp : (isTokenExpired now (loadAll s)).1 = true := by
      rw [isTokenExpired_fst, viewExpiry_loadAll, hve]
      simpa using hstale
    have hRef : hasTruthyRefresh (isTokenExpired now (loadAll s)).2 = true := by
      rw [isTokenExpired_state, hasTruthyRefresh_getExpiry, hasTruthyRefresh_loadAll]
      exact hR
    obtain ⟨msg, heq, -⟩ := refreshTokens_failure_state now resp _ hRef hf
    simp only [initializeAuth_eq]
    rw [if_neg (by simp [hA, hR]), hve]
    simp only [hexp, if_true]
    rw [heq]
    exact ⟨rfl, clearTokens_cleared _, rfl⟩

/-- Witness for C7 covering all four cases at concrete states: empty
state, tokens without expiry, the fresh 6-minute session, and the stale
4-minute session with a succeeding and with a failing renewal. -/
theorem initializeAuth_cases_witness :
    ((initializeAuth 0 (RefreshResponse.notOk none) emptyState).1 = false ∧
     (initializeAuth 0 (RefreshResponse.notOk none) emptyState).2.2 = []) ∧
    ((initializeAuth 0 (RefreshResponse.notOk none) sNoExpiry).1 = false ∧
     sessionCleared (initializeAuth 0 (RefreshResponse.notOk none) sNoExpiry).2.1) ∧
    ((initializeAuth 0 (RefreshResponse.notOk none) sFresh6).1 = true ∧
     (initializeAuth 0 (RefreshResponse.notOk none) sFresh6).2.2 = [] ∧
     (initializeAuth 0 (RefreshResponse.notOk none)
        sFresh6).2.1.refreshTimeout.isSome = true) ∧
    ((initializeAuth 0 (RefreshResponse.okBody (some envA2)) sStale4).1 = true ∧
     countRenew (initializeAuth 0 (RefreshResponse.okBody (some envA2))
        sStale4).2.2 = 1) ∧
    ((initializeAuth 0 (RefreshResponse.notOk none) sStale4).1 = false ∧
     sessionCleared (initializeAuth 0 (RefreshResponse.notOk none) sStale4).2.1 ∧
     countRenew (initializeAuth 0 (RefreshResponse.notOk none) sStale4).2.2 = 1) :=
  ⟨(initializeAuth_cases 0 (RefreshResponse.notOk none) emptyState).1
      (Or.inl (by decide)),
   (initializeAuth_cases 0 (RefreshResponse.notOk none) sNoExpiry).2.1
      (by decide) (by decide) rfl,
   (initializeAuth_cases 0 (RefreshResponse.notOk none) sFresh6).2.2.1 360000
      (by decide) (by decide) rfl (by decide),
   (initializeAuth_cases 0 (RefreshResponse.okBody (some envA2)) sStale4).2.2.2.1
      240000 envA2 (by decide) (by decide) rfl (by decide) rfl (by decide) (by decide),
   (initializeAuth_cases 0 (RefreshResponse.notOk none) sStale4).2.2.2.2 240000
      (by decide) (by decide) rfl (by decide) trivial⟩

/-- C8: every credential pair stored via `setTokens` is returned exactly
by `getAccessToken`/`getRefreshToken`, including after a simulated
process restart that reloads from durable storage alone. -/
theorem setTokens_roundtrip (a r : String) (s : SessionState) :
    (getAccessToken (setTokens a r s)).1 = some a ∧
    (getRefreshToken (setTokens a r s)).1 = some r ∧
    (getAccessToken (restartOf (setTokens a r s))).1 = some a ∧
    (getRefreshToken (restartOf (setTokens a r s))).1 = some r := by
  unfold getAccessToken getRefreshToken setTokens restartOf strTruthy
  by_cases ha : a = "" <;> by_cases hr : r = "" <;> simp [ha, hr]

/-- C9: `clearTokens` is idempotent: it erases the access token, refresh
token, and expiry from memory and durable storage, disarms the timer,
and a second call produces the same fully-absent state. -/
theorem clear_idempotent_spec (s : SessionState) :
    clearTokens (clearTokens s) = clearTokens s ∧
    sessionCleared (clearTokens s) ∧
    (clearTokens s).refreshTimeout = none ∧
    (TimerInv s → (clearTokens s).pending = []) :=
  ⟨clearTokens_idem s, clearTokens_cleared s, clearTokens_refreshTimeout s,
   fun hI => (clearTokens_timer hI).2⟩

/-- C2 counterexample: the exposed mutator `setAccessToken`, applied to
the empty state, establishes an access token while no refresh token is
present anywhere, violating the claimed invariant. -/
theorem setAccessToken_breaks_pair_inv :
    hasTruthyAccess (setAccessToken "A" emptyState) = true ∧
    hasTruthyRefresh (setAccessToken "A" emptyState) = false ∧
    ¬ TokenInv (setAccessToken "A" emptyState) := by
  refine ⟨by decide, by decide, ?_⟩
  intro hInv
  have := hInv (by decide)
  simp [hasTruthyRefresh, setAccessToken, emptyState, strTruthy] at this

/-- C2 amended: in every state satisfying the access-implies-refresh
invariant, the invariant is preserved by `setTokens` (for a nonempty
refresh credential), `setExpiry`, the three lazy getters,
`isTokenExpired`, `clearTokens`, `clearAccessToken`, `stopAutoRefresh`,
`startAutoRefresh`, `refreshTokens`, `ensureValidToken`,
`initializeAuth`, and `getDeviceLocations` — that is, by every exposed
operation except `setAccessToken`, which can install an access token
without any refresh token. -/
theorem token_pair_inv_preserved (s : SessionState) (h : TokenInv s) :
    (∀ a r, r ≠ "" → TokenInv (setTokens a r s)) ∧
    (∀ e, TokenInv (setExpiry e s)) ∧
    TokenInv (getAccessToken s).2 ∧
    TokenInv (getRefreshToken s).2 ∧
    TokenInv (getExpiry s).2 ∧
    (∀ now, TokenInv (isTokenExpired now s).2) ∧
    TokenInv (clearTokens s) ∧
    TokenInv (clearAccessToken s) ∧
    TokenInv (stopAutoRefresh s) ∧
    (∀ now, TokenInv (startAutoRefresh now s)) ∧
    (∀ now resp, TokenInv (refreshTokens now resp s).2.1) ∧
    (∀ now resp, TokenInv (ensureValidToken now resp s).2.1) ∧
    (∀ now resp, TokenInv (initializeAuth now resp s).2.1) ∧
    (∀ now rr1 rr2 r1 r2, TokenInv (getDeviceLocations now rr1 rr2 r1 r2 s).2.1) :=
  ⟨fun a r hr => tokenInv_setTokens a r s hr,
   fun e => tokenInv_setExpiry e h,
   tokenInv_getAccess h,
   tokenInv_getRefresh h,
   tokenInv_getExpiry h,
   fun now => tokenInv_isTokenExpired now h,
   tokenInv_clearTokens s,
   tokenInv_clearAccessToken s,
   tokenInv_stopAutoRefresh h,
   fun now => tokenInv_startAutoRefresh now h,
   fun now resp => tokenInv_refreshTokens now resp s h,
   fun now resp => tokenInv_ensureValidToken now resp s h,
   fun now resp => tokenInv_initializeAuth now resp s h,
   fun now rr1 rr2 r1 r2 => tokenInv_getDeviceLocations now rr1 rr2 r1 r2 s h⟩

/-- Witness for the amended C2 at the live session `s0`. -/
theorem token_pair_inv_preserved_witness :
    TokenInv (setTokens "A1" "R1" s0) ∧ TokenInv (clearTokens s0) ∧
    TokenInv (refreshTokens 0 (RefreshResponse.notOk none) s0).2.1 :=
  ⟨(token_pair_inv_preserved s0 (by decide)).1 "A1" "R1" (by decide),
   (token_pair_inv_preserved s0 (by decide)).2.2.2.2.2.2.1,
   (token_pair_inv_preserved s0 (by decide)).2.2.2.2.2.2.2.2.2.2.1 0
     (RefreshResponse.notOk none)⟩

/-- C3: when `refreshTokens` receives a non-success response or a
response body missing the nested token fields, it clears both tokens and
the expiry from memory and durable storage, disarms the proactive timer,
and fails with an error carrying the server-provided message when one is
available; afterwards both getters return absent. -/
theorem renewal_failure_clears_session (now : Int) (resp : RefreshResponse)
    (s : SessionState) (hr : hasTruthyRefresh s = true) (hI : TimerInv s)
    (hf : renewalFailureShape resp) :
    (∃ msg, (refreshTokens now resp s).1 = Except.error msg ∧
       ∀ m, resp = RefreshResponse.notOk (some m) → m ≠ "" → msg = m) ∧
    sessionCleared (refreshTokens now resp s).2.1 ∧
    (refreshTokens now resp s).2.1.refreshTimeout = none ∧
    (refreshTokens now resp s).2.1.pending = [] ∧
    (getAccessToken (refreshTokens now resp s).2.1).1 = none ∧
    (getRefreshToken (refreshTokens now resp s).2.1).1 = none := by
  obtain ⟨msg, heq, hmsg⟩ := refreshTokens_failure_state now resp s hr hf
  have hI1 : TimerInv (getRefreshToken s).2 :=
    timerInv_of_fields (getRefreshToken_timer_fields s).1
      (getRefreshToken_timer_fields s).2 hI
  have hcl : sessionCleared (refreshTokens now resp s).2.1 := by
    rw [heq]; exact clearTokens_cleared _
  refine ⟨⟨msg, by rw [heq], hmsg⟩, hcl, ?_, ?_, getAccessToken_of_cleared hcl,
    getRefreshToken_of_cleared hcl⟩
  · rw [heq]; exact (clearTokens_timer hI1).1
  · rw [heq]; exact (clearTokens_timer hI1).2

/-- Witness for C3: a 401 renewal response with body message `boom`
against a live session clears everything and surfaces `boom`. -/
theorem renewal_failure_clears_session_witness :
    (∃ msg, (refreshTokens 0 (RefreshResponse.notOk (some "boom")) sTimer).1
          = Except.error msg ∧
       ∀ m, RefreshResponse.notOk (some "boom") = RefreshResponse.notOk (some m) →
         m ≠ "" → msg = m) ∧
    sessionCleared (refreshTokens 0 (RefreshResponse.notOk (some "boom")) sTimer).2.1 ∧
    (refreshTokens 0 (RefreshResponse.notOk (some "boom")) sTimer).2.1.refreshTimeout
        = none ∧
    (refreshTokens 0 (RefreshResponse.notOk (some "boom")) sTimer).2.1.pending = [] ∧
    (getAccessToken (refreshTokens 0 (RefreshResponse.notOk (some "boom")) sTimer).2.1).1
        = none ∧
    (getRefreshToken (refreshTokens 0 (RefreshResponse.notOk (some "boom")) sTimer).2.1).1
        = none :=
  renewal_failure_clears_session 0 (RefreshResponse.notOk (some "boom")) sTimer
    (by decide) (by decide) trivial

/-- C10: on a live fresh session, a 304 (Not Modified) data response
makes `getDeviceLocations` return an empty array with no error and the
session state unchanged, after the one data request. -/
theorem status304_empty_array (now : Int) (rr1 rr2 : RefreshResponse)
    (r2 : HttpResponse) (body : List Nat) (s : SessionState) (e : Int)
    (ha : strTruthy s.accessToken = true) (hr : strTruthy s.refreshToken = true)
    (he : s.accessTokenExpiry = some e) (hfresh : 5 * 60 * 1000 < e - now) :
    getDeviceLocations now rr1 rr2 ⟨304, body⟩ r2 s =
      (Except.ok [], s, [Event.dataFetch]) := by
  unfold getDeviceLocations
  rw [ensureValid_fresh ha hr he hfresh]
  simp [getAccessToken, ha]

/-- Witness for C10 at the concrete live session `s0` and time 0. -/
theorem status304_empty_array_witness :
    getDeviceLocations 0 (RefreshResponse.notOk none) (RefreshResponse.notOk none)
        ⟨304, [7, 8]⟩ ⟨200, []⟩ s0 = (Except.ok [], s0, [Event.dataFetch]) :=
  status304_empty_array 0 (RefreshResponse.notOk none) (RefreshResponse.notOk none)
    ⟨200, []⟩ [7, 8] s0 10000000 (by decide) (by decide) rfl (by decide)

/-- Witness for C9 at a concrete state with an armed timer. -/
theorem clear_idempotent_spec_witness :
    clearTokens (clearTokens sTimer) = clearTokens sTimer ∧
    sessionCleared (clearTokens sTimer) ∧
    (clearTokens sTimer).refreshTimeout = none ∧
    (clearTokens sTimer).pending = [] :=
  ⟨(clear_idempotent_spec sTimer).1, (clear_idempotent_spec sTimer).2.1,
   (clear_idempotent_spec sTimer).2.2.1,
   (clear_idempotent_spec sTimer).2.2.2 (by decide)⟩

end MapApi
